import Mathlib

/-!
Verification development for the HealthMetrics360 repository (a Python
suite: `main.py` CLI extractor, `strtest.py` browser dashboard, plus two
standalone scripts).  The definitions below are a shallow embedding of the
data model and operations of `main.py` / `strtest.py`:

* Python `str.lower` / `str.upper` / `str.strip` and the `in` substring
  test are modelled ASCII-faithfully (`pyLower`, `pyUpper`, `pyStrip`,
  `pyContains`).
* JSON / CSV response payloads are modelled structurally; a field that may
  be absent or null is an `Option`.  Numeric observation values are opaque
  to the program (they are carried, never computed with), so they are
  modelled as integers.
* A raised exception inside an adapter's `try` block (network/HTTP error
  or response-parsing error) is modelled by `FetchOutcome.failure`; the
  adapter functions are total, returning the record table together with
  the list of warning messages the Python code prints.
-/

/-! ### Python string primitives (ASCII-faithful) -/

/-- Model of Python `str.lower` (ASCII case mapping, per character). -/
def pyLower (s : String) : String := ⟨s.data.map Char.toLower⟩

/-- Model of Python `str.upper` (ASCII case mapping, per character). -/
def pyUpper (s : String) : String := ⟨s.data.map Char.toUpper⟩

/-- ASCII whitespace, as stripped by Python `str.strip`. -/
def isPyWs (c : Char) : Bool :=
  c == ' ' || c == '\t' || c == '\n' || c == '\r' || c == '\x0b' || c == '\x0c'

/-- Model of Python `str.strip`: drop leading and trailing whitespace. -/
def pyStrip (s : String) : String :=
  ⟨((s.data.dropWhile isPyWs).reverse.dropWhile isPyWs).reverse⟩

/-- `leadsWith needle hay`: `hay` starts with `needle`. -/
def leadsWith : List Char → List Char → Bool
  | [], _ => true
  | _ :: _, [] => false
  | a :: as, b :: bs => a == b && leadsWith as bs

/-- `listContains needle hay`: `needle` occurs contiguously in `hay`. -/
def listContains (needle : List Char) : List Char → Bool
  | [] => leadsWith needle []
  | c :: cs => leadsWith needle (c :: cs) || listContains needle cs

/-- Model of Python `needle in hay` on strings (substring test). -/
def pyContains (hay needle : String) : Bool := listContains needle.data hay.data

/-! ### Data model

`ObservationRecord` as produced by the adapters: the Python dicts
`{'Year': ..., 'Country': ..., 'KPI': ..., 'Value': ..., 'Source': ...}`. -/

structure ObsRecord where
  Year : Int
  Country : String
  KPI : String
  Value : Option Int
  Source : String
deriving DecidableEq, Repr

/-- One object of the WHO GHO JSON `value` array; `item.get(...)` returns
null for a missing key, hence the `Option` fields.  `TimeDim` is carried
already parsed to an integer (the API serves integer years; Python's
`int(year)` is then the identity). -/
structure WhoItem where
  SpatialDim : Option String
  TimeDim : Option Int
  NumericValue : Option Int
deriving DecidableEq, Repr

/-- The WHO GHO response body; `none` models a JSON object without a
`value` key (`if 'value' in data` fails). -/
abbrev WhoData := Option (List WhoItem)

/-- One World Bank observation object.  `date` is carried already parsed
(`int(item['date'])`); `value` may be JSON null. -/
structure WbItem where
  date : Int
  value : Option Int
deriving DecidableEq, Repr

/-- The World Bank response `[metadata, observations]`; `none` models a
response failing the guard `len(data) > 1 and data[1]` because it is too
short or its second element is null.  (An empty observation array also
fails that guard, and produces the same empty record list here.) -/
abbrev WbData := Option (List WbItem)

/-- One row of the OECD CSV as read into the dataframe; `row.get` of a
missing column and a NaN cell are both `none`. -/
structure OecdRow where
  TIME_PERIOD : Option Int
  OBS_VALUE : Option Int
deriving DecidableEq, Repr

abbrev OecdData := List OecdRow

/-- Outcome of one HTTP GET plus response decoding: `failure` models any
exception raised inside the adapter's `try` block (timeout, non-2xx via
`raise_for_status`, connection error, or malformed JSON/CSV), carrying
the exception text. -/
inductive FetchOutcome (α : Type) where
  | failure (err : String)
  | success (payload : α)

/-! ### Record builders: the parsing loops of the three extractors -/

/-- The record-building loop of `extract_who_gho_data` (main.py 150-162,
identical in strtest.py 97-109): keep items whose `SpatialDim` equals the
requested country code and whose `TimeDim` is truthy (`if year`) and
`≥ 2015`.  Note: `NumericValue` is copied with no null check. -/
def whoRecords (country_code kpi_name : String) (data : WhoData) : List ObsRecord :=
  match data with
  | none => []
  | some items =>
    items.filterMap fun item =>
      if item.SpatialDim == some country_code then
        match item.TimeDim with
        | some year =>
          if year ≠ 0 ∧ 2015 ≤ year then
            some ⟨year, country_code, kpi_name, item.NumericValue, "WHO GHO"⟩
          else none
        | none => none
      else none

/-- The record-building loop of `extract_world_bank_data` (main.py
189-199, identical in strtest.py 131-141): keep observations whose
`value` is not null.  There is no year test in this loop. -/
def worldBankRecords (country_code kpi_name : String) (data : WbData) : List ObsRecord :=
  match data with
  | none => []
  | some items =>
    items.filterMap fun item =>
      if item.value.isSome then
        some ⟨item.date, country_code, kpi_name, item.value, "World Bank"⟩
      else none

/-- The record-building loop of `extract_oecd_data` (main.py 236-247,
identical in strtest.py 170-181): keep rows with a non-null `OBS_VALUE`
and a truthy `TIME_PERIOD` that is `≥ 2015`. -/
def oecdRecords (country_code kpi_name : String) (rows : OecdData) : List ObsRecord :=
  rows.filterMap fun row =>
    if row.OBS_VALUE.isSome then
      match row.TIME_PERIOD with
      | some year =>
        if year ≠ 0 ∧ 2015 ≤ year then
          some ⟨year, country_code, kpi_name, row.OBS_VALUE, "OECD"⟩
        else none
      | none => none
    else none

/-! ### OECD dataset routing (main.py 216-222, strtest.py 152-157) -/

def DSD_HEALTH_PROT : String := "OECD.ELS.HD,DSD_HEALTH_PROT@DF_HEALTH_PROT"

def DSD_HEALTH_STAT : String := "OECD.ELS.HD,DSD_HEALTH_STAT@DF_HEALTH_STAT"

/-- `if "insurance" in kpi_name.lower(): ... else: ...` -/
def oecdDatasetFor (kpi_name : String) : String :=
  if pyContains (pyLower kpi_name) "insurance" then DSD_HEALTH_PROT else DSD_HEALTH_STAT

/-- Spec-worded notion, for comparison with the code's routing test:
case-insensitive substring containment. -/
def containsCaseInsensitive (hay needle : String) : Bool :=
  pyContains (pyLower hay) (pyLower needle)

/-! ### Adapters with failure handling (main.py variants)

Each adapter returns the record table together with the warning messages
it prints.  Every control path returns; nothing propagates an error. -/

def unavailableMsg (kpi_name : String) : String :=
  "❌ Data unavailable for that KPI: " ++ kpi_name

/-- `extract_who_gho_data` (main.py 140-172). -/
def extract_who_gho_data (country_code kpi_name : String)
    (resp : FetchOutcome WhoData) : List ObsRecord × List String :=
  match resp with
  | .failure err => ([], [unavailableMsg kpi_name ++ " - Error: " ++ err])
  | .success data =>
    let records := whoRecords country_code kpi_name data
    if records.isEmpty then ([], [unavailableMsg kpi_name]) else (records, [])

/-- `extract_world_bank_data` (main.py 174-209). -/
def extract_world_bank_data (country_code kpi_name : String)
    (resp : FetchOutcome WbData) : List ObsRecord × List String :=
  match resp with
  | .failure err => ([], [unavailableMsg kpi_name ++ " - Error: " ++ err])
  | .success data =>
    let records := worldBankRecords country_code kpi_name data
    if records.isEmpty then ([], [unavailableMsg kpi_name]) else (records, [])

/-- `extract_oecd_data` (main.py 211-257).  The dataset choice only
shapes the request URL; it is exposed through `oecdDatasetFor`. -/
def extract_oecd_data (country_code kpi_name : String)
    (resp : FetchOutcome OecdData) : List ObsRecord × List String :=
  match resp with
  | .failure err => ([], [unavailableMsg kpi_name ++ " - Error: " ++ err])
  | .success rows =>
    let records := oecdRecords country_code kpi_name rows
    if records.isEmpty then ([], [unavailableMsg kpi_name]) else (records, [])

/-! ### Aggregator (main.py `extract_all_data`, strtest.py
`extract_data_for_countries`)

A user selection, grouped by source, as built by both front ends. -/

structure Selection where
  WHO_GHO : List String
  WORLD_BANK : List String
  OECD : List String
deriving DecidableEq, Repr

def Selection.total (s : Selection) : Nat :=
  s.WHO_GHO.length + s.WORLD_BANK.length + s.OECD.length

/-- The network environment: the decoded response each single GET would
yield, per country code and KPI display name.  (The indicator code looked
up from the catalog only shapes the request URL, so it is not a key.) -/
structure Env where
  who : String → String → FetchOutcome WhoData
  wb : String → String → FetchOutcome WbData
  oecd : String → String → FetchOutcome OecdData

/-- The per-call result tables for one country, in the call order of the
aggregator loops: WHO GHO KPIs, then World Bank, then OECD. -/
def adapterTables (country_code : String) (sel : Selection) (env : Env) :
    List (List ObsRecord) :=
  sel.WHO_GHO.map (fun kpi => (extract_who_gho_data country_code kpi (env.who country_code kpi)).1)
    ++ sel.WORLD_BANK.map (fun kpi => (extract_world_bank_data country_code kpi (env.wb country_code kpi)).1)
    ++ sel.OECD.map (fun kpi => (extract_oecd_data country_code kpi (env.oecd country_code kpi)).1)

/-- Number of HTTP GETs a single-country extraction performs: each
selected KPI triggers exactly one `requests.get` in its adapter. -/
def httpCalls (sel : Selection) : Nat := sel.total

/-- The `sort_values(['KPI', 'Year'])` order of main.py line 300. -/
def kpiYearLe (a b : ObsRecord) : Bool :=
  decide (a.KPI < b.KPI ∨ (a.KPI = b.KPI ∧ a.Year ≤ b.Year))

/-- The `sort_values(['Country', 'KPI', 'Year'])` order of strtest.py
line 243. -/
def countryKpiYearLe (a b : ObsRecord) : Bool :=
  decide (a.Country < b.Country ∨
    (a.Country = b.Country ∧ (a.KPI < b.KPI ∨ (a.KPI = b.KPI ∧ a.Year ≤ b.Year))))

/-- `extract_all_data` (main.py 260-303): call each adapter for each
selected KPI, keep the non-empty tables, concatenate, sort by KPI then
Year; if nothing was kept, return an empty table. -/
def extract_all_data (country_code : String) (sel : Selection) (env : Env) :
    List ObsRecord :=
  let all_data := (adapterTables country_code sel env).filter (fun d => !d.isEmpty)
  if all_data.isEmpty then [] else (all_data.flatten).mergeSort kpiYearLe

/-- `extract_data_for_countries` (strtest.py 189-246): the same per
country, concatenated over the selected countries in order, sorted by
Country then KPI then Year. -/
def extract_data_for_countries (country_codes : List String) (sel : Selection)
    (env : Env) : List ObsRecord :=
  let all_data :=
    ((country_codes.map (fun c => adapterTables c sel env)).flatten).filter
      (fun d => !d.isEmpty)
  if all_data.isEmpty then [] else (all_data.flatten).mergeSort countryKpiYearLe

/-! ### Presenter (main.py `display_comprehensive_table`, pivots) -/

def noDataMsg : String := "❌ No data found for the selected criteria."

/-- The messages `display_comprehensive_table` (main.py 305-366) prints
that decide the claims: the empty table notice, or the header of the
rendered view. -/
def display_comprehensive_table (df : List ObsRecord) (country_code : String) :
    List String :=
  if df.isEmpty then [noDataMsg]
  else ["📈 COMPREHENSIVE HEALTH KPI DATA FOR " ++ country_code]

/-- One cell of `df.pivot_table(index='KPI', columns='Year',
values='Value', aggfunc='first')` (main.py 321-326): pandas groups the
rows of `df` in order and `first` takes the first non-missing value of
the cell's group. -/
def pivot_first (df : List ObsRecord) (kpi : String) (year : Int) : Option Int :=
  (df.find? fun r => r.KPI == kpi && r.Year == year && r.Value.isSome).bind
    (fun r => r.Value)

/-- One cell of the multi-country pivot `pivot_table(index='KPI',
columns=['Country', 'Year'], values='Value', aggfunc='first')`
(strtest.py 347-352). -/
def pivot_first_by_country (df : List ObsRecord) (kpi country : String)
    (year : Int) : Option Int :=
  (df.find? fun r =>
      r.KPI == kpi && r.Country == country && r.Year == year && r.Value.isSome).bind
    (fun r => r.Value)

/-! ### Static catalogs (main.py `__init__`, lines 17-91) -/

def who_gho_kpis : List (String × String) := [
  ("% births attended by skilled health personnel", "MDG_0000000025"),
  ("Coverage of essential health services (UHC index)", "XX"),
  ("DTP3 immunization coverage (%)", "WHS4_100"),
  ("Current health expenditure (% of GDP)", "GHED_CHEGDP_SHA2011"),
  ("Per capita health expenditure (USD)", "GHED_CHE_pc_US_SHA2011"),
  ("Out-of-pocket health spending (% of total)", "SDGOOP"),
  ("Domestic general government health expenditure (GGHE-D) as percentage of GDP", "GHED_GGHE-DCHE_SHA2011"),
  ("Prevalence of overweight and obesity", "EQ_OVERWEIGHTADULT"),
  ("Raised blood pressure (SBP>=140 OR DBP>=90) (age-standardized estimate)", "BP_04"),
  ("Age-standardized DALYs, diabetes mellitus, per 100,000", "SA_0000001421")]

def world_bank_kpis : List (String × String) := [
  ("% population with access to basic sanitation", "SH.STA.BASS.ZS"),
  ("Life expectancy at birth", "SP.DYN.LE00.IN"),
  ("Under-5 mortality rate (per 1,000)", "SH.DYN.MORT"),
  ("Maternal mortality ratio (per 100,000)", "SH.STA.MMRT"),
  ("Infant mortality rate (per 1,000)", "SP.DYN.IMRT.IN"),
  ("Neonatal mortality rate", "SH.DYN.NMRT"),
  ("Suicide mortality rate", "SH.STA.SUIC.P5")]

def oecd_kpis : List (String × String) := [
  ("Unmet need for medical care (% reporting delay or avoidance)", "UNMET_NEED_MED_CARE"),
  ("% population with health insurance", "HEALTH_INSURANCE_COV"),
  ("Expenditure on pharmaceuticals per capita", "PHARM_EXP_PC_USD"),
  ("Expenditure on inpatient care (% of total)", "INPATIENT_CARE_SHARE"),
  ("Preventive care spending (% of total health spending)", "PREVENT_CARE_SHARE"),
  ("ICU beds per 100,000 (select countries)", "ICU_BEDS_PER_100K"),
  ("Medical technology density (MRI/CT scanners per million)", "MED_TECH_DENSITY"),
  ("Hospital beds by function of healthcare", "HOSP_BEDS_FUNC")]

def country_codes : List (String × String) := [
  ("afghanistan", "AFG"), ("albania", "ALB"), ("algeria", "DZA"), ("argentina", "ARG"),
  ("armenia", "ARM"), ("australia", "AUS"), ("austria", "AUT"), ("azerbaijan", "AZE"),
  ("bangladesh", "BGD"), ("belgium", "BEL"), ("brazil", "BRA"), ("bulgaria", "BGR"),
  ("canada", "CAN"), ("chile", "CHL"), ("china", "CHN"), ("colombia", "COL"),
  ("denmark", "DNK"), ("egypt", "EGY"), ("finland", "FIN"), ("france", "FRA"),
  ("germany", "DEU"), ("ghana", "GHA"), ("greece", "GRC"), ("india", "IND"),
  ("indonesia", "IDN"), ("iran", "IRN"), ("iraq", "IRQ"), ("ireland", "IRL"),
  ("israel", "ISR"), ("italy", "ITA"), ("japan", "JPN"), ("jordan", "JOR"),
  ("kenya", "KEN"), ("south korea", "KOR"), ("malaysia", "MYS"), ("mexico", "MEX"),
  ("netherlands", "NLD"), ("nigeria", "NGA"), ("norway", "NOR"), ("pakistan", "PAK"),
  ("poland", "POL"), ("portugal", "PRT"), ("russia", "RUS"), ("saudi arabia", "SAU"),
  ("south africa", "ZAF"), ("spain", "ESP"), ("sweden", "SWE"), ("switzerland", "CHE"),
  ("thailand", "THA"), ("turkey", "TUR"), ("ukraine", "UKR"), ("united kingdom", "GBR"),
  ("united states", "USA"), ("vietnam", "VNM")]

/-- strtest.py country mapping (display-cased keys, lines 64-79); the
codes agree with `country_codes`. -/
def countries : List (String × String) := [
  ("Afghanistan", "AFG"), ("Albania", "ALB"), ("Algeria", "DZA"), ("Argentina", "ARG"),
  ("Armenia", "ARM"), ("Australia", "AUS"), ("Austria", "AUT"), ("Azerbaijan", "AZE"),
  ("Bangladesh", "BGD"), ("Belgium", "BEL"), ("Brazil", "BRA"), ("Bulgaria", "BGR"),
  ("Canada", "CAN"), ("Chile", "CHL"), ("China", "CHN"), ("Colombia", "COL"),
  ("Denmark", "DNK"), ("Egypt", "EGY"), ("Finland", "FIN"), ("France", "FRA"),
  ("Germany", "DEU"), ("Ghana", "GHA"), ("Greece", "GRC"), ("India", "IND"),
  ("Indonesia", "IDN"), ("Iran", "IRN"), ("Iraq", "IRQ"), ("Ireland", "IRL"),
  ("Israel", "ISR"), ("Italy", "ITA"), ("Japan", "JPN"), ("Jordan", "JOR"),
  ("Kenya", "KEN"), ("South Korea", "KOR"), ("Malaysia", "MYS"), ("Mexico", "MEX"),
  ("Netherlands", "NLD"), ("Nigeria", "NGA"), ("Norway", "NOR"), ("Pakistan", "PAK"),
  ("Poland", "POL"), ("Portugal", "PRT"), ("Russia", "RUS"), ("Saudi Arabia", "SAU"),
  ("South Africa", "ZAF"), ("Spain", "ESP"), ("Sweden", "SWE"), ("Switzerland", "CHE"),
  ("Thailand", "THA"), ("Turkey", "TUR"), ("Ukraine", "UKR"), ("United Kingdom", "GBR"),
  ("United States", "USA"), ("Vietnam", "VNM")]

/-! ### CLI front end (main.py `get_country_input`,
`display_kpis_and_get_selection`, `run`) -/

/-- `get_country_input` (main.py 93-96):
`country = input(...).lower().strip()` then
`self.country_codes.get(country, country.upper())`. -/
def get_country_input (user_input : String) : String :=
  let country := pyStrip (pyLower user_input)
  match country_codes.lookup country with
  | some code => code
  | none => pyUpper country

/-- The numbered menu built by `display_kpis_and_get_selection`
(main.py 98-126): entries `(number, source, kpi name)`, numbered from 1,
WHO GHO first, then World Bank, then OECD. -/
def all_kpis : List (Nat × String × String) :=
  ((who_gho_kpis.map fun p => ("WHO_GHO", p.1))
      ++ (world_bank_kpis.map fun p => ("WORLD_BANK", p.1))
      ++ (oecd_kpis.map fun p => ("OECD", p.1))).enumFrom 1

/-- The selection loop of `display_kpis_and_get_selection` (main.py
129-138): for each entered number, in entry order, append the matching
menu entry's KPI to its source's list; numbers outside the menu are
ignored. -/
def display_kpis_and_get_selection (selected_numbers : List Int) : Selection :=
  let pick := fun (db : String) =>
    selected_numbers.filterMap fun n =>
      (all_kpis.find? fun e => (e.1 : Int) == n).bind
        (fun e => if e.2.1 == db then some e.2.2 else none)
  { WHO_GHO := pick "WHO_GHO", WORLD_BANK := pick "WORLD_BANK", OECD := pick "OECD" }

/-- `run` (main.py 368-391): resolve the country, build the selection,
extract, display.  Returns (table, number of HTTP GETs made, messages
printed by the presenter). -/
def run (country_input : String) (selected_numbers : List Int) (env : Env) :
    List ObsRecord × Nat × List String :=
  let country_code := get_country_input country_input
  let sel := display_kpis_and_get_selection selected_numbers
  let df := extract_all_data country_code sel env
  (df, httpCalls sel, display_comprehensive_table df country_code)

/-! ### Browser front end (strtest.py `main`, extract-button branch,
lines 298-322) -/

def selectCountryMsg : String := "Please select at least one country."

def selectKpiMsg : String := "Please select at least one KPI."

def stNoDataMsg : String := "No data found for the selected criteria."

/-- The extract-button handler of strtest.py `main`: guard clauses first
(no country, then zero KPIs) — extraction, and with it any network call,
is only reached past both guards.  Returns (table, number of HTTP GETs
made, notices shown). -/
def st_main (selected_countries : List String) (sel : Selection) (env : Env) :
    List ObsRecord × Nat × List String :=
  if selected_countries.isEmpty then ([], 0, [selectCountryMsg])
  else if sel.total == 0 then ([], 0, [selectKpiMsg])
  else
    let codes := selected_countries.filterMap fun c => countries.lookup c
    let df := extract_data_for_countries codes sel env
    if df.isEmpty then (df, codes.length * sel.total, [stNoDataMsg])
    else (df, codes.length * sel.total, [])

/-! ### Concrete fixtures for the closed evaluation theorems -/

/-- An environment in which every GET raises (e.g. a timeout). -/
def envFailAll : Env :=
  { who := fun _ _ => .failure "timeout",
    wb := fun _ _ => .failure "timeout",
    oecd := fun _ _ => .failure "timeout" }

/-- One KPI per source. -/
def selThree : Selection :=
  { WHO_GHO := ["DTP3 immunization coverage (%)"],
    WORLD_BANK := ["Life expectancy at birth"],
    OECD := ["Hospital beds by function of healthcare"] }

/-- An environment in which the three adapters produce tables of 3, 0 and
5 records respectively: WHO has three matching observations (plus one for
another country), the World Bank call fails, OECD has five rows. -/
def envThreeZeroFive : Env :=
  { who := fun _ _ => .success (some [
      ⟨some "IND", some 2016, some 85⟩,
      ⟨some "IND", some 2017, some 86⟩,
      ⟨some "USA", some 2017, some 90⟩,
      ⟨some "IND", some 2018, some 87⟩]),
    wb := fun _ _ => .failure "HTTPError 404",
    oecd := fun _ _ => .success [
      ⟨some 2015, some 11⟩, ⟨some 2016, some 12⟩, ⟨some 2017, some 13⟩,
      ⟨some 2018, some 14⟩, ⟨some 2019, some 15⟩] }

/-- A WHO payload mixing two country codes and a null `NumericValue`. -/
def whoMixedItems : List WhoItem :=
  [⟨some "IND", some 2018, some 10⟩,
   ⟨some "USA", some 2018, some 20⟩,
   ⟨some "IND", some 2019, none⟩,
   ⟨some "USA", some 2019, some 21⟩]

/-! ### Helper lemmas: ASCII case mapping and whitespace -/

theorem toNat_charOfNat_of_lt {n : Nat} (h : n < 55296) : (Char.ofNat n).toNat = n := by
  unfold Char.ofNat
  rw [dif_pos (Or.inl h)]
  rfl

theorem char_toUpper_toLower (c : Char) : c.toLower.toUpper = c.toUpper := by
  unfold Char.toLower Char.toUpper
  by_cases h : c.toNat ≥ 65 ∧ c.toNat ≤ 90
  · rw [if_pos h]
    have hv : (Char.ofNat (c.toNat + 32)).toNat = c.toNat + 32 :=
      toNat_charOfNat_of_lt (by omega)
    simp only [hv]
    rw [if_pos (by omega), if_neg (by omega)]
    have h32 : c.toNat + 32 - 32 = c.toNat := by omega
    rw [h32, Char.ofNat_toNat]
  · rw [if_neg h]

theorem isPyWs_eq_false_of_toNat {c : Char} (h : 33 ≤ c.toNat) : isPyWs c = false := by
  simp only [isPyWs, Bool.or_eq_false_iff, beq_eq_false_iff_ne]
  refine ⟨⟨⟨⟨⟨?_, ?_⟩, ?_⟩, ?_⟩, ?_⟩, ?_⟩ <;>
    · rintro rfl
      revert h
      decide

theorem isPyWs_toLower (c : Char) : isPyWs c.toLower = isPyWs c := by
  unfold Char.toLower
  by_cases h : c.toNat ≥ 65 ∧ c.toNat ≤ 90
  · rw [if_pos h]
    have h1 : isPyWs (Char.ofNat (c.toNat + 32)) = false :=
      isPyWs_eq_false_of_toNat (by rw [toNat_charOfNat_of_lt (by omega)]; omega)
    have h2 : isPyWs c = false := isPyWs_eq_false_of_toNat (by omega)
    rw [h1, h2]
  · rw [if_neg h]

theorem pyUpper_pyLower (s : String) : pyUpper (pyLower s) = pyUpper s := by
  unfold pyUpper pyLower
  simp only [List.map_map]
  exact congrArg String.mk (List.map_congr_left fun c _ => char_toUpper_toLower c)

theorem pyStrip_pyLower (s : String) : pyStrip (pyLower s) = pyLower (pyStrip s) := by
  unfold pyStrip pyLower
  have hws : (isPyWs ∘ Char.toLower) = isPyWs := funext fun c => isPyWs_toLower c
  simp only [List.dropWhile_map, hws, ← List.map_reverse]

/-! ### Helper lemmas: substring containment -/

theorem leadsWith_self_append (n ys : List Char) : leadsWith n (n ++ ys) = true := by
  induction n with
  | nil => rfl
  | cons a as ih => simp [leadsWith, ih]

theorem listContains_of_leadsWith (n : List Char) :
    ∀ hay, leadsWith n hay = true → listContains n hay = true := by
  intro hay h
  cases hay with
  | nil => simpa [listContains] using h
  | cons c cs => simp [listContains, h]

theorem listContains_append (n xs ys : List Char) :
    listContains n (xs ++ (n ++ ys)) = true := by
  induction xs with
  | nil => exact listContains_of_leadsWith n _ (leadsWith_self_append n ys)
  | cons c cs ih => simp [listContains, ih]

theorem pyContains_append_mid (a k b : String) : pyContains (a ++ k ++ b) k = true := by
  unfold pyContains
  rw [String.data_append, String.data_append, List.append_assoc]
  exact listContains_append k.data a.data b.data

theorem pyContains_append_right (a k : String) : pyContains (a ++ k) k = true := by
  unfold pyContains
  rw [String.data_append]
  have h := listContains_append k.data a.data []
  rwa [List.append_nil] at h

/-! ### Helper lemmas: the two sort orders are transitive and total -/

theorem kpiYearLe_trans (a b c : ObsRecord) (hab : kpiYearLe a b = true)
    (hbc : kpiYearLe b c = true) : kpiYearLe a c = true := by
  simp only [kpiYearLe, decide_eq_true_eq] at *
  rcases hab with h1 | ⟨e1, h1⟩ <;> rcases hbc with h2 | ⟨e2, h2⟩
  · exact Or.inl (lt_trans h1 h2)
  · exact Or.inl (e2 ▸ h1)
  · exact Or.inl (e1 ▸ h2)
  · exact Or.inr ⟨e1.trans e2, le_trans h1 h2⟩

theorem kpiYearLe_total (a b : ObsRecord) : (kpiYearLe a b || kpiYearLe b a) = true := by
  simp only [kpiYearLe, Bool.or_eq_true, decide_eq_true_eq]
  rcases lt_trichotomy a.KPI b.KPI with h | h | h
  · exact Or.inl (Or.inl h)
  · rcases le_total a.Year b.Year with hy | hy
    · exact Or.inl (Or.inr ⟨h, hy⟩)
    · exact Or.inr (Or.inr ⟨h.symm, hy⟩)
  · exact Or.inr (Or.inl h)

theorem countryKpiYearLe_trans (a b c : ObsRecord) (hab : countryKpiYearLe a b = true)
    (hbc : countryKpiYearLe b c = true) : countryKpiYearLe a c = true := by
  simp only [countryKpiYearLe, decide_eq_true_eq] at *
  rcases hab with h1 | ⟨e1, h1⟩ <;> rcases hbc with h2 | ⟨e2, h2⟩
  · exact Or.inl (lt_trans h1 h2)
  · exact Or.inl (e2 ▸ h1)
  · exact Or.inl (e1 ▸ h2)
  · refine Or.inr ⟨e1.trans e2, ?_⟩
    rcases h1 with h1 | ⟨f1, h1⟩ <;> rcases h2 with h2 | ⟨f2, h2⟩
    · exact Or.inl (lt_trans h1 h2)
    · exact Or.inl (f2 ▸ h1)
    · exact Or.inl (f1 ▸ h2)
    · exact Or.inr ⟨f1.trans f2, le_trans h1 h2⟩

theorem countryKpiYearLe_total (a b : ObsRecord) :
    (countryKpiYearLe a b || countryKpiYearLe b a) = true := by
  simp only [countryKpiYearLe, Bool.or_eq_true, decide_eq_true_eq]
  rcases lt_trichotomy a.Country b.Country with h | h | h
  · exact Or.inl (Or.inl h)
  · rcases lt_trichotomy a.KPI b.KPI with hk | hk | hk
    · exact Or.inl (Or.inr ⟨h, Or.inl hk⟩)
    · rcases le_total a.Year b.Year with hy | hy
      · exact Or.inl (Or.inr ⟨h, Or.inr ⟨hk, hy⟩⟩)
      · exact Or.inr (Or.inr ⟨h.symm, Or.inr ⟨hk.symm, hy⟩⟩)
    · exact Or.inr (Or.inr ⟨h.symm, Or.inl hk⟩)
  · exact Or.inr (Or.inl h)

/-! ### Helper lemmas: characterizing the adapters' record tables -/

theorem mem_whoRecords {cc k : String} {items : List WhoItem} {r : ObsRecord} :
    r ∈ whoRecords cc k (some items) ↔
      ∃ item ∈ items, item.SpatialDim = some cc ∧
        ∃ y : Int, item.TimeDim = some y ∧ y ≠ 0 ∧ 2015 ≤ y ∧
          r = ⟨y, cc, k, item.NumericValue, "WHO GHO"⟩ := by
  simp only [whoRecords, List.mem_filterMap]
  constructor
  · rintro ⟨item, hmem, hf⟩
    refine ⟨item, hmem, ?_⟩
    split at hf
    · split at hf
      next y hty =>
        split at hf
        next hy => exact ⟨eq_of_beq (by assumption), y, hty, hy.1, hy.2,
          (Option.some.inj hf).symm⟩
        next hy => simp at hf
      next hty => simp at hf
    · simp at hf
  · rintro ⟨item, hmem, hsd, y, hy, h0, h15, rfl⟩
    refine ⟨item, hmem, ?_⟩
    rw [hy]
    simp [hsd, h0, h15]

theorem mem_oecdRecords {cc k : String} {rows : List OecdRow} {r : ObsRecord} :
    r ∈ oecdRecords cc k rows ↔
      ∃ row ∈ rows, row.OBS_VALUE.isSome = true ∧
        ∃ y : Int, row.TIME_PERIOD = some y ∧ y ≠ 0 ∧ 2015 ≤ y ∧
          r = ⟨y, cc, k, row.OBS_VALUE, "OECD"⟩ := by
  simp only [oecdRecords, List.mem_filterMap]
  constructor
  · rintro ⟨row, hmem, hf⟩
    refine ⟨row, hmem, ?_⟩
    split at hf
    · split at hf
      next y hty =>
        split at hf
        next hy => exact ⟨by assumption, y, hty, hy.1, hy.2,
          (Option.some.inj hf).symm⟩
        next hy => simp at hf
      next hty => simp at hf
    · simp at hf
  · rintro ⟨row, hmem, hov, y, hy, h0, h15, rfl⟩
    refine ⟨row, hmem, ?_⟩
    rw [hy]
    simp [hov, h0, h15]

theorem worldBankRecords_eq (cc k : String) (items : List WbItem) :
    worldBankRecords cc k (some items) =
      (items.filter fun i => i.value.isSome).map
        (fun i => ⟨i.date, cc, k, i.value, "World Bank"⟩) := by
  induction items with
  | nil => rfl
  | cons i is ih =>
    simp only [worldBankRecords] at ih ⊢
    rw [List.filterMap_cons, List.filter_cons]
    by_cases h : i.value.isSome
    · simp only [h, if_true, List.map_cons, ih]
    · simp only [h, if_false, Bool.false_eq_true, ih]

/-! ### Helper lemmas: aggregator -/

theorem extract_all_data_perm (cc : String) (sel : Selection) (env : Env) :
    (extract_all_data cc sel env).Perm (adapterTables cc sel env).flatten := by
  unfold extract_all_data
  by_cases h : ((adapterTables cc sel env).filter fun d => !d.isEmpty).isEmpty
  · rw [if_pos h]
    rw [List.isEmpty_iff] at h
    have hfl : (adapterTables cc sel env).flatten = [] := by
      have h2 := List.flatten_filter_not_isEmpty (L := adapterTables cc sel env)
      rw [h] at h2
      exact h2.symm
    rw [hfl]
  · rw [if_neg h]
    have hp := List.mergeSort_perm
      ((adapterTables cc sel env).filter fun d => !d.isEmpty).flatten kpiYearLe
    exact hp.trans (by rw [List.flatten_filter_not_isEmpty])

theorem extract_all_data_sorted (cc : String) (sel : Selection) (env : Env) :
    List.Pairwise (fun a b => kpiYearLe a b = true) (extract_all_data cc sel env) := by
  unfold extract_all_data
  by_cases h : ((adapterTables cc sel env).filter fun d => !d.isEmpty).isEmpty
  · rw [if_pos h]
    exact List.Pairwise.nil
  · rw [if_neg h]
    exact List.sorted_mergeSort kpiYearLe_trans kpiYearLe_total _

theorem extract_data_for_countries_perm (ccs : List String) (sel : Selection)
    (env : Env) :
    (extract_data_for_countries ccs sel env).Perm
      ((ccs.map fun c => adapterTables c sel env).flatten).flatten := by
  unfold extract_data_for_countries
  by_cases h : (((ccs.map fun c => adapterTables c sel env).flatten).filter
      fun d => !d.isEmpty).isEmpty
  · rw [if_pos h]
    rw [List.isEmpty_iff] at h
    have h2 := List.flatten_filter_not_isEmpty
      (L := (ccs.map fun c => adapterTables c sel env).flatten)
    rw [h] at h2
    rw [← h2]
    exact List.Perm.nil
  · rw [if_neg h]
    have hp := List.mergeSort_perm
      (((ccs.map fun c => adapterTables c sel env).flatten).filter
        fun d => !d.isEmpty).flatten countryKpiYearLe
    exact hp.trans (by rw [List.flatten_filter_not_isEmpty])

theorem extract_data_for_countries_sorted (ccs : List String) (sel : Selection)
    (env : Env) :
    List.Pairwise (fun a b => countryKpiYearLe a b = true)
      (extract_data_for_countries ccs sel env) := by
  unfold extract_data_for_countries
  by_cases h : (((ccs.map fun c => adapterTables c sel env).flatten).filter
      fun d => !d.isEmpty).isEmpty
  · rw [if_pos h]
    exact List.Pairwise.nil
  · rw [if_neg h]
    exact List.sorted_mergeSort countryKpiYearLe_trans countryKpiYearLe_total _

/-! ### Claim theorems -/

/-- Claim C3 (confirmed): for every KPI display name, the OECD adapter
selects the health-protection dataset identifier if and only if the name
contains the substring "insurance" case-insensitively, and selects the
health-statistics dataset identifier for every other name. -/
theorem C3_oecd_dataset_routing (kpi_name : String) :
    (oecdDatasetFor kpi_name = DSD_HEALTH_PROT ↔
      containsCaseInsensitive kpi_name "insurance" = true) ∧
    (oecdDatasetFor kpi_name = DSD_HEALTH_STAT ↔
      containsCaseInsensitive kpi_name "insurance" = false) := by
  have hlow : pyLower "insurance" = "insurance" := by decide
  have hne : DSD_HEALTH_PROT ≠ DSD_HEALTH_STAT := by decide
  unfold oecdDatasetFor containsCaseInsensitive
  rw [hlow]
  by_cases h : pyContains (pyLower kpi_name) "insurance" = true
  · rw [if_pos h, h]
    simp [hne]
  · have hf : pyContains (pyLower kpi_name) "insurance" = false := by
      simpa using h
    rw [if_neg h, hf]
    simp [Ne.symm hne]

/-- Claim C5 (confirmed): every record the WHO GHO adapter outputs for a
payload carries the requested country code, and stems from a payload item
whose `SpatialDim` equals that code, with `TimeDim` mapped to the year
and `NumericValue` mapped to the value. -/
theorem C5_who_country_filter_and_mapping (country_code kpi_name : String)
    (items : List WhoItem) (r : ObsRecord)
    (hr : r ∈ whoRecords country_code kpi_name (some items)) :
    r.Country = country_code ∧ r.KPI = kpi_name ∧ r.Source = "WHO GHO" ∧
      ∃ item ∈ items, item.SpatialDim = some country_code ∧
        item.TimeDim = some r.Year ∧ item.NumericValue = r.Value := by
  rw [mem_whoRecords] at hr
  obtain ⟨item, hmem, hsd, y, hty, h0, h15, rfl⟩ := hr
  exact ⟨rfl, rfl, rfl, item, hmem, hsd, hty, rfl⟩

/-- Witness for C5 at a payload mixing two country codes: the
"IND"-tagged record is in the output and satisfies the mapping. -/
theorem C5_who_country_filter_and_mapping_witness :
    ((⟨2018, "IND", "kpi", some 10, "WHO GHO"⟩ : ObsRecord) ∈
        whoRecords "IND" "kpi" (some whoMixedItems)) ∧
    ((⟨2018, "IND", "kpi", some 10, "WHO GHO"⟩ : ObsRecord).Country = "IND" ∧
      (⟨2018, "IND", "kpi", some 10, "WHO GHO"⟩ : ObsRecord).KPI = "kpi" ∧
      (⟨2018, "IND", "kpi", some 10, "WHO GHO"⟩ : ObsRecord).Source = "WHO GHO" ∧
      ∃ item ∈ whoMixedItems, item.SpatialDim = some "IND" ∧
        item.TimeDim = some (⟨2018, "IND", "kpi", some 10, "WHO GHO"⟩ : ObsRecord).Year ∧
        item.NumericValue = (⟨2018, "IND", "kpi", some 10, "WHO GHO"⟩ : ObsRecord).Value) :=
  ⟨by decide,
   C5_who_country_filter_and_mapping "IND" "kpi" whoMixedItems _ (by decide)⟩

/-- Claim C6 (confirmed): the World Bank adapter excludes exactly the
observations whose `value` is null, and maps `date` (parsed as integer)
to the year and `value` to the value for the rest; shown in general and
on a payload with a null-valued observation. -/
theorem C6_worldBank_null_values_excluded :
    (∀ (cc k : String) (items : List WbItem),
      worldBankRecords cc k (some items) =
        (items.filter fun i => i.value.isSome).map
          (fun i => ⟨i.date, cc, k, i.value, "World Bank"⟩)) ∧
    worldBankRecords "IND" "Life expectancy at birth"
        (some [⟨2018, some 69⟩, ⟨2019, none⟩, ⟨2020, some 70⟩]) =
      [⟨2018, "IND", "Life expectancy at birth", some 69, "World Bank"⟩,
       ⟨2020, "IND", "Life expectancy at birth", some 70, "World Bank"⟩] :=
  ⟨worldBankRecords_eq, by decide⟩

/-- Claim C1 counterexample: the World Bank adapter applies no year
filter in its parsing loop; a synthetic response observation for year
2010 with a non-null value appears in the output table, so the claimed
`year ≥ 2015` invariant fails for that adapter. -/
theorem C1_counterexample :
    ¬ (∀ r ∈ worldBankRecords "IND" "Life expectancy at birth"
        (some [⟨2010, some 65⟩]), 2015 ≤ r.Year) := by
  decide

/-- Claim C1 (amended): the WHO GHO and OECD adapters enforce `year ≥
2015` on every payload, and on the synthetic 2010/2015/2024 payload only
2015 and 2024 survive; the World Bank adapter performs no year filtering
of its own (it only requests the 2015:2024 date range from the server),
so an observation of any year with a non-null value passes through. -/
theorem C1_amended_year_filter :
    (∀ (cc k : String) (data : WhoData) (r : ObsRecord),
        r ∈ whoRecords cc k data → 2015 ≤ r.Year) ∧
    (∀ (cc k : String) (rows : OecdData) (r : ObsRecord),
        r ∈ oecdRecords cc k rows → 2015 ≤ r.Year) ∧
    ((whoRecords "IND" "kpi" (some [⟨some "IND", some 2010, some 1⟩,
        ⟨some "IND", some 2015, some 2⟩, ⟨some "IND", some 2024, some 3⟩])).map
      ObsRecord.Year = [2015, 2024]) ∧
    ((oecdRecords "IND" "kpi" [⟨some 2010, some 1⟩, ⟨some 2015, some 2⟩,
        ⟨some 2024, some 3⟩]).map ObsRecord.Year = [2015, 2024]) ∧
    (∀ (cc k : String) (y v : Int),
        (⟨y, cc, k, some v, "World Bank"⟩ : ObsRecord) ∈
          worldBankRecords cc k (some [⟨y, some v⟩])) := by
  refine ⟨?_, ?_, by decide, by decide, ?_⟩
  · intro cc k data r hr
    cases data with
    | none => simp [whoRecords] at hr
    | some items =>
      rw [mem_whoRecords] at hr
      obtain ⟨item, hmem, hsd, y, hty, h0, h15, rfl⟩ := hr
      exact h15
  · intro cc k rows r hr
    rw [mem_oecdRecords] at hr
    obtain ⟨row, hmem, hov, y, hty, h0, h15, rfl⟩ := hr
    exact h15
  · intro cc k y v
    rw [worldBankRecords_eq]
    simp

/-- Witness for C1 (amended): the year bound applied to a concrete WHO
record of the synthetic payload. -/
theorem C1_amended_year_filter_witness :
    ((⟨2015, "IND", "kpi", some 2, "WHO GHO"⟩ : ObsRecord) ∈
        whoRecords "IND" "kpi" (some [⟨some "IND", some 2010, some 1⟩,
          ⟨some "IND", some 2015, some 2⟩, ⟨some "IND", some 2024, some 3⟩])) ∧
    (2015 : Int) ≤ (⟨2015, "IND", "kpi", some 2, "WHO GHO"⟩ : ObsRecord).Year :=
  ⟨by decide,
   C1_amended_year_filter.1 "IND" "kpi"
     (some [⟨some "IND", some 2010, some 1⟩, ⟨some "IND", some 2015, some 2⟩,
       ⟨some "IND", some 2024, some 3⟩])
     ⟨2015, "IND", "kpi", some 2, "WHO GHO"⟩ (by decide)⟩

/-- Claim C2 counterexample: the WHO GHO adapter performs no null check
on `NumericValue`; an observation with a null value, matching country and
valid year yields an output record whose value field is null. -/
theorem C2_counterexample :
    ¬ (∀ r ∈ whoRecords "IND" "DTP3 immunization coverage (%)"
        (some [⟨some "IND", some 2020, none⟩]), r.Value.isSome = true) := by
  decide

/-- Claim C2 (amended): the World Bank and OECD adapters drop
observations with no usable value before adding records, so every record
they output carries a non-null value; the WHO GHO adapter copies
`NumericValue` unchecked and can add records whose value is null. -/
theorem C2_amended_non_null_values :
    (∀ (cc k : String) (data : WbData) (r : ObsRecord),
        r ∈ worldBankRecords cc k data → r.Value.isSome = true) ∧
    (∀ (cc k : String) (rows : OecdData) (r : ObsRecord),
        r ∈ oecdRecords cc k rows → r.Value.isSome = true) ∧
    (∀ (cc k : String) (y : Int), y ≠ 0 → 2015 ≤ y →
        (⟨y, cc, k, none, "WHO GHO"⟩ : ObsRecord) ∈
          whoRecords cc k (some [⟨some cc, some y, none⟩])) := by
  refine ⟨?_, ?_, ?_⟩
  · intro cc k data r hr
    cases data with
    | none => simp [worldBankRecords] at hr
    | some items =>
      rw [worldBankRecords_eq] at hr
      simp only [List.mem_map, List.mem_filter] at hr
      obtain ⟨i, ⟨hmem, hv⟩, rfl⟩ := hr
      exact hv
  · intro cc k rows r hr
    rw [mem_oecdRecords] at hr
    obtain ⟨row, hmem, hov, y, hty, h0, h15, rfl⟩ := hr
    exact hov
  · intro cc k y h0 h15
    rw [mem_whoRecords]
    exact ⟨⟨some cc, some y, none⟩, by simp, rfl, y, rfl, h0, h15, rfl⟩

/-- Witness for C2 (amended): the non-null bound on a concrete World
Bank record, and a null-valued WHO record in an output table. -/
theorem C2_amended_non_null_values_witness :
    ((⟨2018, "IND", "kpi", some 69, "World Bank"⟩ : ObsRecord).Value.isSome = true) ∧
    ((⟨2020, "IND", "kpi", none, "WHO GHO"⟩ : ObsRecord) ∈
        whoRecords "IND" "kpi" (some [⟨some "IND", some 2020, none⟩])) :=
  ⟨C2_amended_non_null_values.1 "IND" "kpi" (some [⟨2018, some 69⟩]) _ (by decide),
   C2_amended_non_null_values.2.2 "IND" "kpi" 2020 (by decide) (by decide)⟩

/-- Claim C4 (confirmed): for every adapter and every failure mode — a
raised exception (network/HTTP or parsing), or a well-formed response
with zero matching records — the adapter returns the empty table along
with a warning rather than propagating an error (the embedded adapters
are total, so no path raises), and every warning message contains the
affected KPI's display name. -/
theorem C4_error_handling (cc k err : String) :
    (extract_who_gho_data cc k (.failure err) =
        ([], [unavailableMsg k ++ " - Error: " ++ err]) ∧
      extract_world_bank_data cc k (.failure err) =
        ([], [unavailableMsg k ++ " - Error: " ++ err]) ∧
      extract_oecd_data cc k (.failure err) =
        ([], [unavailableMsg k ++ " - Error: " ++ err])) ∧
    ((∀ data, whoRecords cc k data = [] →
        extract_who_gho_data cc k (.success data) = ([], [unavailableMsg k])) ∧
      (∀ data, worldBankRecords cc k data = [] →
        extract_world_bank_data cc k (.success data) = ([], [unavailableMsg k])) ∧
      (∀ rows, oecdRecords cc k rows = [] →
        extract_oecd_data cc k (.success rows) = ([], [unavailableMsg k]))) ∧
    ((∀ resp w, w ∈ (extract_who_gho_data cc k resp).2 → pyContains w k = true) ∧
      (∀ resp w, w ∈ (extract_world_bank_data cc k resp).2 → pyContains w k = true) ∧
      (∀ resp w, w ∈ (extract_oecd_data cc k resp).2 → pyContains w k = true)) := by
  have hfail : ∀ e : String,
      pyContains (unavailableMsg k ++ " - Error: " ++ e) k = true := by
    intro e
    unfold unavailableMsg
    rw [String.append_assoc]
    exact pyContains_append_mid _ k _
  have hempty : pyContains (unavailableMsg k) k = true := by
    unfold unavailableMsg
    exact pyContains_append_right _ k
  refine ⟨⟨rfl, rfl, rfl⟩, ⟨?_, ?_, ?_⟩, ⟨?_, ?_, ?_⟩⟩
  · intro data h
    simp [extract_who_gho_data, h]
  · intro data h
    simp [extract_world_bank_data, h]
  · intro rows h
    simp [extract_oecd_data, h]
  · intro resp w hw
    cases resp with
    | failure e =>
      simp only [extract_who_gho_data, List.mem_singleton] at hw
      subst hw
      exact hfail e
    | success data =>
      simp only [extract_who_gho_data] at hw
      split at hw
      · simp only [List.mem_singleton] at hw
        subst hw
        exact hempty
      · simp at hw
  · intro resp w hw
    cases resp with
    | failure e =>
      simp only [extract_world_bank_data, List.mem_singleton] at hw
      subst hw
      exact hfail e
    | success data =>
      simp only [extract_world_bank_data] at hw
      split at hw
      · simp only [List.mem_singleton] at hw
        subst hw
        exact hempty
      · simp at hw
  · intro resp w hw
    cases resp with
    | failure e =>
      simp only [extract_oecd_data, List.mem_singleton] at hw
      subst hw
      exact hfail e
    | success rows =>
      simp only [extract_oecd_data] at hw
      split at hw
      · simp only [List.mem_singleton] at hw
        subst hw
        exact hempty
      · simp at hw

/-- Witness for C4: the three contract parts at concrete inputs. -/
theorem C4_error_handling_witness :
    extract_who_gho_data "IND" "DTP3 immunization coverage (%)" (.failure "timeout") =
      ([], [unavailableMsg "DTP3 immunization coverage (%)" ++ " - Error: " ++ "timeout"]) ∧
    extract_world_bank_data "IND" "Life expectancy at birth" (.success (some [])) =
      ([], [unavailableMsg "Life expectancy at birth"]) ∧
    pyContains (unavailableMsg "DTP3 immunization coverage (%)" ++ " - Error: " ++ "timeout")
      "DTP3 immunization coverage (%)" = true :=
  ⟨(C4_error_handling "IND" "DTP3 immunization coverage (%)" "timeout").1.1,
   (C4_error_handling "IND" "Life expectancy at birth" "timeout").2.1.2.1 (some []) rfl,
   (C4_error_handling "IND" "DTP3 immunization coverage (%)" "timeout").2.2.1
     (.failure "timeout") _ (by decide)⟩

/-- Claim C7 (confirmed): the aggregator's output contains exactly the
records of all non-empty adapter result tables (a permutation of their
concatenation — with 3, 0 and 5 rows it has 8 rows, see the witness),
sorted by (KPI, Year) in the single-country CLI path and by (Country,
KPI, Year) in the multi-country path; when every adapter returns empty
it returns the empty table and the presenter reports no data rather than
raising an error. -/
theorem C7_aggregator_merge_sort :
    (∀ (cc : String) (sel : Selection) (env : Env),
        (extract_all_data cc sel env).Perm (adapterTables cc sel env).flatten ∧
        List.Pairwise (fun a b => kpiYearLe a b = true)
          (extract_all_data cc sel env)) ∧
    (∀ (ccs : List String) (sel : Selection) (env : Env),
        (extract_data_for_countries ccs sel env).Perm
          ((ccs.map fun c => adapterTables c sel env).flatten).flatten ∧
        List.Pairwise (fun a b => countryKpiYearLe a b = true)
          (extract_data_for_countries ccs sel env)) ∧
    (∀ (cc : String) (sel : Selection) (env : Env),
        (adapterTables cc sel env).flatten = [] →
        extract_all_data cc sel env = [] ∧
        display_comprehensive_table (extract_all_data cc sel env) cc =
          [noDataMsg]) := by
  refine ⟨fun cc sel env =>
      ⟨extract_all_data_perm cc sel env, extract_all_data_sorted cc sel env⟩,
    fun ccs sel env =>
      ⟨extract_data_for_countries_perm ccs sel env,
        extract_data_for_countries_sorted ccs sel env⟩,
    ?_⟩
  intro cc sel env h
  have hp := extract_all_data_perm cc sel env
  rw [h] at hp
  have hnil := hp.eq_nil
  exact ⟨hnil, by rw [hnil]; rfl⟩

/-- Witness for C7: a 3/0/5 adapter outcome merges to 8 rows, sorted;
an all-failure outcome yields the empty table and the no-data notice. -/
theorem C7_aggregator_merge_sort_witness :
    (extract_all_data "IND" selThree envThreeZeroFive).length = 8 ∧
    List.Pairwise (fun a b => kpiYearLe a b = true)
      (extract_all_data "IND" selThree envThreeZeroFive) ∧
    extract_all_data "IND" selThree envFailAll = [] ∧
    display_comprehensive_table (extract_all_data "IND" selThree envFailAll) "IND" =
      [noDataMsg] :=
  ⟨((C7_aggregator_merge_sort.1 "IND" selThree envThreeZeroFive).1.length_eq).trans
      (by decide),
   (C7_aggregator_merge_sort.1 "IND" selThree envThreeZeroFive).2,
   (C7_aggregator_merge_sort.2.2 "IND" selThree envFailAll rfl).1,
   (C7_aggregator_merge_sort.2.2 "IND" selThree envFailAll rfl).2⟩

/-- Claim C8 (confirmed): when two records share the same pivot cell
with different values, the presenter's `aggfunc='first'` pivot keeps the
first-encountered value — both for the (KPI, Year) pivot of the CLI path
and the (KPI, Country, Year) pivot of the browser path. -/
theorem C8_pivot_first_value_wins
    (pre mid post : List ObsRecord) (r1 r2 : ObsRecord)
    (hk : r2.KPI = r1.KPI) (hy : r2.Year = r1.Year) (hc : r2.Country = r1.Country)
    (hv : r1.Value.isSome = true) (hne : r1.Value ≠ r2.Value)
    (hpre : ∀ r ∈ pre, ¬(r.KPI = r1.KPI ∧ r.Year = r1.Year ∧ r.Value.isSome = true)) :
    pivot_first (pre ++ r1 :: (mid ++ r2 :: post)) r1.KPI r1.Year = r1.Value ∧
    pivot_first_by_country (pre ++ r1 :: (mid ++ r2 :: post))
      r1.KPI r1.Country r1.Year = r1.Value := by
  constructor
  · unfold pivot_first
    rw [List.find?_append]
    have hnone : (pre.find? fun r =>
        r.KPI == r1.KPI && r.Year == r1.Year && r.Value.isSome) = none := by
      rw [List.find?_eq_none]
      intro x hx hb
      apply hpre x hx
      simp only [Bool.and_eq_true, beq_iff_eq] at hb
      exact ⟨hb.1.1, hb.1.2, hb.2⟩
    rw [hnone, List.find?_cons_of_pos _ (by simp [hv])]
    simp
  · unfold pivot_first_by_country
    rw [List.find?_append]
    have hnone : (pre.find? fun r =>
        r.KPI == r1.KPI && r.Country == r1.Country && r.Year == r1.Year &&
          r.Value.isSome) = none := by
      rw [List.find?_eq_none]
      intro x hx hb
      apply hpre x hx
      simp only [Bool.and_eq_true, beq_iff_eq] at hb
      exact ⟨hb.1.1.1, hb.1.2, hb.2⟩
    rw [hnone, List.find?_cons_of_pos _ (by simp [hv])]
    simp

/-- Witness for C8: two records in the same (KPI, Year) cell (from two
sources, values 5 and 7): the pivot reports the first value, 5. -/
theorem C8_pivot_first_value_wins_witness :
    pivot_first [⟨2018, "IND", "kpi", some 5, "WHO GHO"⟩,
        ⟨2018, "IND", "kpi", some 7, "World Bank"⟩] "kpi" 2018 = some 5 ∧
    pivot_first_by_country [⟨2018, "IND", "kpi", some 5, "WHO GHO"⟩,
        ⟨2018, "IND", "kpi", some 7, "World Bank"⟩] "kpi" "IND" 2018 = some 5 :=
  C8_pivot_first_value_wins [] [] [] ⟨2018, "IND", "kpi", some 5, "WHO GHO"⟩
    ⟨2018, "IND", "kpi", some 7, "World Bank"⟩ rfl rfl rfl rfl (by decide)
    (by intro r hr; cases hr)

/-- Claim C9 counterexample: in the CLI variant a run whose selection
resolves to zero KPIs prints the "No data found" notice — no notice
asking to select at least one KPI appears on that path (that notice
exists only in the browser variant). -/
theorem C9_counterexample :
    (run "india" [99] envFailAll).2.2 = [noDataMsg] ∧
    (∀ m ∈ (run "india" [99] envFailAll).2.2,
      pyContains m "select at least one KPI" = false) := by
  constructor
  · rfl
  · decide

/-- Claim C9 (amended): in the browser variant, selecting zero KPIs with
at least one country yields no table, the "Please select at least one
KPI." notice, and zero network calls; in the CLI variant, a selection
resolving to zero KPIs likewise makes zero network calls and yields the
empty table, but with the "No data found" notice instead of a
select-at-least-one-KPI notice. -/
theorem C9_amended_zero_kpis :
    (∀ (scs : List String) (sel : Selection) (env : Env),
        scs ≠ [] → sel.total = 0 →
        st_main scs sel env = ([], 0, [selectKpiMsg])) ∧
    (∀ (country_input : String) (nums : List Int) (env : Env),
        display_kpis_and_get_selection nums = ⟨[], [], []⟩ →
        run country_input nums env = ([], 0, [noDataMsg])) := by
  constructor
  · intro scs sel env hne h0
    unfold st_main
    rw [if_neg (by simpa [List.isEmpty_iff] using hne),
      if_pos (by simp [h0])]
  · intro country_input nums env h
    unfold run
    rw [h]
    rfl

/-- Witness for C9 (amended): both variants at concrete inputs. -/
theorem C9_amended_zero_kpis_witness :
    st_main ["India"] ⟨[], [], []⟩ envFailAll = ([], 0, [selectKpiMsg]) ∧
    run "india" [99] envFailAll = ([], 0, [noDataMsg]) :=
  ⟨C9_amended_zero_kpis.1 ["India"] ⟨[], [], []⟩ envFailAll (by decide) rfl,
   C9_amended_zero_kpis.2 "india" [99] envFailAll rfl⟩

/-- Claim C10 (confirmed): the country-input resolver returns the ISO3
code from the static mapping when the lowercased, trimmed input is one
of its keys, and otherwise passes the trimmed input through uppercased
as a pseudo-code rather than rejecting it. -/
theorem C10_country_resolver (user_input : String) :
    (∀ code, country_codes.lookup (pyStrip (pyLower user_input)) = some code →
      get_country_input user_input = code) ∧
    (country_codes.lookup (pyStrip (pyLower user_input)) = none →
      get_country_input user_input = pyUpper (pyStrip user_input)) := by
  constructor
  · intro code h
    unfold get_country_input
    simp only [h]
  · intro h
    unfold get_country_input
    simp only [h]
    rw [pyStrip_pyLower, pyUpper_pyLower]

/-- Witness for C10: a mapped name (with stray case and spaces) resolves
to its ISO3 code; an unmapped name passes through uppercased. -/
theorem C10_country_resolver_witness :
    get_country_input " India " = "IND" ∧
    get_country_input "Atlantis" = "ATLANTIS" :=
  ⟨(C10_country_resolver " India ").1 "IND" (by decide),
   by
     have h := (C10_country_resolver "Atlantis").2 (by decide)
     rw [h]
     decide⟩
